import Mathlib

/-
Verification of the supervisory control loop of the autocycle stability
firmware (src/src/main.cpp).  The per-tick `loop` function is shallowly
embedded: the machine state mutated by the loop (the `static uint8_t state`,
the global request register and references, and the last values commanded to
the collaborator devices) becomes an explicit `Sys` record; the sensor
readings refreshed at the top of every tick become a `Meas` record; the
per-tick responses of external collaborators (calibration results, the PID
controller output, the inbound telemetry command) become an `Ext` record.
Floating point values are modelled as exact rationals.
-/

namespace Autocycle

/-- State encodings, exactly as in main.cpp (`#define IDLE 0` and so on). -/
def IDLE : ℕ := 0

def CALIB : ℕ := 1

def MANUAL : ℕ := 2

def ASSIST : ℕ := 3

def AUTO : ℕ := 4

def FALLEN : ℕ := 5

def E_STOP : ℕ := 6

/-- User request bit flags (`#define R_CALIB 0b00000001U` and so on). -/
def R_CALIB : ℕ := 0b00000001

def R_MANUAL : ℕ := 0b00000010

def R_STOP : ℕ := 0b00000100

def R_RESUME : ℕ := 0b00001000

/-- Value of the double-precision constant `PI` used by the firmware, as an
exact rational: the IEEE-754 double nearest to pi is 884279719003555 / 2^48. -/
def PI : ℚ := 884279719003555 / 281474976710656

/-- Threshold for being fallen over (`#define FTHRESH PI/4.0`). -/
def FTHRESH : ℚ := PI / 4

/-- Threshold for being back upright (`#define UTHRESH PI/20.0`). -/
def UTHRESH : ℚ := PI / 20

/-- High speed threshold (`#define HIGH_V_THRESH 2.5`). -/
def HIGH_V_THRESH : ℚ := 5 / 2

/-- Low speed threshold (`#define LOW_V_THRESH 2.0`). -/
def LOW_V_THRESH : ℚ := 2

/-- Indicator colors used by `loop` (passive / blink pairs from main.cpp). -/
def RGB_IDLE_P : ℕ × ℕ × ℕ := (255, 255, 0)

def RGB_IDLE_B : ℕ × ℕ × ℕ := (0, 0, 255)

def RGB_CALIB_P : ℕ × ℕ × ℕ := (128, 0, 128)

def RGB_CALIB_B : ℕ × ℕ × ℕ := (128, 255, 128)

def RGB_MANUAL_P : ℕ × ℕ × ℕ := (255, 165, 0)

def RGB_MANUAL_B : ℕ × ℕ × ℕ := (0, 89, 255)

def RGB_ASSIST_P : ℕ × ℕ × ℕ := (34, 139, 34)

def RGB_ASSIST_B : ℕ × ℕ × ℕ := (140, 34, 140)

def RGB_AUTO_P : ℕ × ℕ × ℕ := (0, 255, 0)

def RGB_AUTO_B : ℕ × ℕ × ℕ := (255, 0, 255)

def RGB_FALLEN_P : ℕ × ℕ × ℕ := (255, 140, 0)

def RGB_FALLEN_B : ℕ × ℕ × ℕ := (255, 0, 0)

def RGB_E_STOP_P : ℕ × ℕ × ℕ := (255, 0, 0)

def RGB_E_STOP_B : ℕ × ℕ × ℕ := (0, 0, 255)

/-- Operating mode of the torque (balance) motor, set through
`torque_motor->setMode(OP_PROFILE_POSITION | OP_PROFILE_TORQUE)`.
`modeUnknown` models the mode after `torque_motor->start()` in `setup`:
the TorqueMotor driver is an external collaborator and the mode it leaves
the device in before the first `setMode` call is not specified. -/
inductive OpMode where
  | profilePosition
  | profileTorque
  | modeUnknown
deriving DecidableEq, Repr

/-- The `fabs` of math.h on our rational model of floats. -/
def fabs (x : ℚ) : ℚ := if x < 0 then -x else x

/-- Measurement snapshot: the state variables refreshed from the sensors at
the top of every `loop` iteration (phi, dphi, del, ddel, torque, v). -/
structure Meas where
  phi : ℚ
  dphi : ℚ
  del : ℚ
  ddel : ℚ
  torque : ℚ
  v : ℚ
deriving DecidableEq, Repr

/-- Inbound telemetry command, decoded from the serial channel at the end of
`loop` (the non-RADIOCOMM branch): tag `s` sets the speed reference and
commands the drive motor, tag `d` sets the steering reference, tag `c` ORs a
byte into the request register, and any other tag is ignored. -/
inductive Cmd where
  | cmdSetSpeed (x : ℚ)
  | cmdSetSteer (x : ℚ)
  | cmdSetFlags (b : ℕ)
  | cmdOther
deriving DecidableEq, Repr

/-- Per-tick responses of external collaborators: results of the two IMU
calibration procedures invoked by `calibrate`, the output of
`controller.control` consumed by `automatic` (the PIDController numerics are
an external collaborator, out of the supervisory core), and the inbound
telemetry command (`none` when `TELEMETRY.available()` is false). -/
structure Ext where
  gyroOk : Bool
  accelOk : Bool
  ctrl : ℚ
  cmd : Option Cmd
deriving DecidableEq, Repr

/-- The mutable machine state of the firmware: the supervisor state byte, the
request register, the operator references, and the last values commanded to
the collaborator devices (torque motor mode / position / torque setpoints and
enable flag, drive motor speed, indicator colors / pulse, beep patterns). -/
structure Sys where
  state : ℕ
  user_req : ℕ
  del_r : ℚ
  v_r : ℚ
  tmMode : OpMode
  tmPos : Option ℚ
  tmTorque : Option ℚ
  tmEnabled : Bool
  driveSpeed : ℚ
  passive : ℕ × ℕ × ℕ
  blink : ℕ × ℕ × ℕ
  pulse : Option (ℕ × ℕ)
  beeps : List ℕ
deriving DecidableEq, Repr

/-- State action `idle` (empty body). -/
def idle (s : Sys) : Sys := s

/-- State action `calibrate`: runs the IMU gyro and accelerometer calibration
procedures and reports each result with a distinct beep pattern. -/
def calibrate (s : Sys) (e : Ext) : Sys :=
  let s1 := { s with beeps := s.beeps ++ [if e.gyroOk then 0b01110111 else 0b10001000] }
  { s1 with beeps := s1.beeps ++ [if e.accelOk then 0b10101010 else 0b00110011] }

/-- State action `manual` (empty body). -/
def manual (s : Sys) : Sys := s

/-- State action `assist`: `er = del - del_r; torque_motor->setPosition(er)`. -/
def assist (s : Sys) (m : Meas) : Sys :=
  { s with tmPos := some (m.del - s.del_r) }

/-- State action `automatic`: commands the torque computed by
`controller.control` (collaborator output, an `Ext` input here) through
`torque_motor->setTorque`. -/
def automatic (s : Sys) (e : Ext) : Sys :=
  { s with tmTorque := some e.ctrl }

/-- State action `fallen` (empty body, a TODO stub in the source). -/
def fallen (s : Sys) : Sys := s

/-- State action `emergency_stop` (empty body, a TODO stub in the source). -/
def emergency_stop (s : Sys) : Sys := s

/-- The fall-detection guard shared by the IDLE, ASSIST, AUTO and E_STOP
cases: `if (fabs(phi) > FTHRESH)` enter FALLEN, set the fallen indicator
colors and arm the 500/1500 pulse. -/
def fallGuard (s : Sys) (m : Meas) : Sys :=
  if fabs m.phi > FTHRESH then
    { s with state := FALLEN, passive := RGB_FALLEN_P, blink := RGB_FALLEN_B,
             pulse := some (500, 1500) }
  else s

/-- The `switch (state)` block of `loop`: evaluates the active case's guards
in source order (each matching guard's assignments overwriting the previous
ones), then invokes that case's state action.  The second component records
which state action was invoked (`none` in the default case, which invokes no
action).  The busy-wait `while (!torque_motor->enableOperation());` is
modelled as setting `tmEnabled` (it blocks until the actuator is enabled). -/
def switchPhase (s : Sys) (m : Meas) (e : Ext) : Sys × Option ℕ :=
  if s.state = IDLE then
    let s1 := fallGuard s m
    let s2 := if m.v > 1 then
        { s1 with state := ASSIST, tmMode := OpMode.profilePosition, tmEnabled := true,
                  passive := RGB_ASSIST_P, blink := RGB_ASSIST_B }
      else s1
    let s3 := if s2.user_req &&& R_CALIB ≠ 0 then
        { s2 with state := CALIB, passive := RGB_CALIB_P, blink := RGB_CALIB_B,
                  pulse := some (250, 250) }
      else s2
    let s4 := if s3.user_req &&& R_MANUAL ≠ 0 then
        { s3 with state := MANUAL, passive := RGB_MANUAL_P, blink := RGB_MANUAL_B,
                  tmMode := OpMode.profilePosition, tmEnabled := true }
      else s3
    (idle s4, some IDLE)
  else if s.state = CALIB then
    let s1 := { s with user_req := s.user_req &&& (255 ^^^ R_CALIB), state := IDLE,
                       pulse := none, passive := RGB_IDLE_P, blink := RGB_IDLE_B }
    (calibrate s1 e, some CALIB)
  else if s.state = MANUAL then
    let s1 := if s.user_req &&& R_RESUME ≠ 0 then
        { s with user_req := s.user_req &&& (255 ^^^ (R_RESUME ||| R_MANUAL)),
                 state := IDLE, passive := RGB_IDLE_P, blink := RGB_IDLE_B }
      else s
    (manual s1, some MANUAL)
  else if s.state = ASSIST then
    let s1 := fallGuard s m
    let s2 := if m.v > HIGH_V_THRESH then
        { s1 with state := AUTO, tmMode := OpMode.profileTorque, tmEnabled := true,
                  passive := RGB_AUTO_P, blink := RGB_AUTO_B }
      else s1
    let s3 := if m.v < 1 / 2 then
        { s2 with state := IDLE, passive := RGB_IDLE_P, blink := RGB_IDLE_B }
      else s2
    let s4 := if s3.user_req &&& R_STOP ≠ 0 then
        { s3 with state := E_STOP, driveSpeed := 0,
                  passive := RGB_E_STOP_P, blink := RGB_E_STOP_B }
      else s3
    (assist s4 m, some ASSIST)
  else if s.state = AUTO then
    let s1 := fallGuard s m
    let s2 := if m.v < LOW_V_THRESH then
        { s1 with state := ASSIST, tmMode := OpMode.profilePosition, tmEnabled := true,
                  passive := RGB_ASSIST_P, blink := RGB_ASSIST_B }
      else s1
    let s3 := if s2.user_req &&& R_STOP ≠ 0 then
        { s2 with state := E_STOP, driveSpeed := 0,
                  passive := RGB_E_STOP_P, blink := RGB_E_STOP_B }
      else s2
    (automatic s3 e, some AUTO)
  else if s.state = FALLEN then
    let s1 := if fabs m.phi < UTHRESH then
        { s with state := IDLE, passive := RGB_IDLE_P, blink := RGB_IDLE_B, pulse := none }
      else s
    (fallen s1, some FALLEN)
  else if s.state = E_STOP then
    let s1 := fallGuard s m
    let s2 := if s1.user_req &&& R_RESUME ≠ 0 then
        { s1 with user_req := s1.user_req &&& (255 ^^^ (R_RESUME ||| R_STOP)),
                  state := IDLE, passive := RGB_IDLE_P, blink := RGB_IDLE_B }
      else s1
    (emergency_stop s2, some E_STOP)
  else
    ({ s with passive := (0, 0, 0) }, none)

/-- Command polling at the end of `loop`: decodes at most one inbound frame
and applies its mutation (tag `s`: set `v_r` and command the drive motor;
tag `d`: set `del_r`; tag `c`: OR a byte into `user_req`; other tags
ignored).  The request register is a `uint8_t`, so the ORed byte is
truncated to 8 bits. -/
def pollCmd (s : Sys) (c : Option Cmd) : Sys :=
  match c with
  | none => s
  | some (Cmd.cmdSetSpeed x) => { s with v_r := x, driveSpeed := x }
  | some (Cmd.cmdSetSteer x) => { s with del_r := x }
  | some (Cmd.cmdSetFlags b) => { s with user_req := s.user_req ||| b % 256 }
  | some Cmd.cmdOther => s

/-- The telemetry report emitted once per tick after the switch block (pure
output: state byte followed by the snapshot values, in source print order). -/
def report (s : Sys) (m : Meas) : ℕ × ℚ × ℚ × ℚ × ℚ × ℚ × ℚ :=
  (s.state, m.phi, m.del, m.dphi, m.ddel, m.v, m.torque)

/-- One full iteration of `loop`: the switch block (guarded transitions plus
one state action), then the report (no state effect), then command polling. -/
def loop (s : Sys) (m : Meas) (e : Ext) : Sys :=
  pollCmd (switchPhase s m e).1 e.cmd

/-- Which state action the switch block of this tick invoked. -/
def tickAction (s : Sys) (m : Meas) (e : Ext) : Option ℕ :=
  (switchPhase s m e).2

/-- The machine state after `setup`: state IDLE, request register and
references zeroed, idle indicator colors, no setpoints commanded yet.  The
torque motor mode, its enable flag and the drive motor speed after the
collaborator `start()` calls are not specified, so they are parameters. -/
def init (mode : OpMode) (en : Bool) (ds : ℚ) : Sys :=
  { state := IDLE, user_req := 0, del_r := 0, v_r := 0, tmMode := mode,
    tmPos := none, tmTorque := none, tmEnabled := en, driveSpeed := ds,
    passive := RGB_IDLE_P, blink := RGB_IDLE_B, pulse := none, beeps := [] }

/-- Machine states reachable from `setup` by any sequence of ticks with any
sensor readings, collaborator responses and inbound commands. -/
inductive Reachable : Sys → Prop where
  | start : ∀ mode en ds, Reachable (init mode en ds)
  | step : ∀ s m e, Reachable s → Reachable (loop s m e)

/-- Runs the loop over a list of per-tick inputs. -/
def run (s : Sys) : List (Meas × Ext) → Sys
  | [] => s
  | (m, e) :: rest => run (loop s m e) rest

/-- Tests whether an inbound command is a set-request-flags frame. -/
def setsFlags : Option Cmd → Bool
  | some (Cmd.cmdSetFlags _) => true
  | _ => false

lemma pollCmd_state (s : Sys) (c : Option Cmd) : (pollCmd s c).state = s.state := by
  cases c with
  | none => rfl
  | some c => cases c <;> rfl

lemma pollCmd_tmMode (s : Sys) (c : Option Cmd) : (pollCmd s c).tmMode = s.tmMode := by
  cases c with
  | none => rfl
  | some c => cases c <;> rfl

lemma pollCmd_tmPos (s : Sys) (c : Option Cmd) : (pollCmd s c).tmPos = s.tmPos := by
  cases c with
  | none => rfl
  | some c => cases c <;> rfl

lemma pollCmd_tmTorque (s : Sys) (c : Option Cmd) : (pollCmd s c).tmTorque = s.tmTorque := by
  cases c with
  | none => rfl
  | some c => cases c <;> rfl

lemma pollCmd_tmEnabled (s : Sys) (c : Option Cmd) : (pollCmd s c).tmEnabled = s.tmEnabled := by
  cases c with
  | none => rfl
  | some c => cases c <;> rfl

lemma pollCmd_passive (s : Sys) (c : Option Cmd) : (pollCmd s c).passive = s.passive := by
  cases c with
  | none => rfl
  | some c => cases c <;> rfl

lemma pollCmd_pulse (s : Sys) (c : Option Cmd) : (pollCmd s c).pulse = s.pulse := by
  cases c with
  | none => rfl
  | some c => cases c <;> rfl

lemma pollCmd_user_req (s : Sys) (c : Option Cmd) (hc : setsFlags c = false) :
    (pollCmd s c).user_req = s.user_req := by
  cases c with
  | none => rfl
  | some c => cases c <;> simp_all [pollCmd, setsFlags]

lemma land_land_zero (u a b : ℕ) (h : a &&& b = 0) : (u &&& a) &&& b = 0 := by
  rw [Nat.and_assoc, h, Nat.and_zero]

/-- C8: on every tick in which the Assisted action runs (the tick starts in
state ASSIST, whose switch case invokes `assist`), the balance actuator's
position setpoint is commanded to exactly `del - del_r`, the steering angle
of this tick's snapshot minus the steering reference, with no other scaling
or offset. -/
theorem assist_position_law (s : Sys) (m : Meas) (e : Ext) (h : s.state = ASSIST) :
    (loop s m e).tmPos = some (m.del - s.del_r) := by
  rw [loop, pollCmd_tmPos]
  simp [switchPhase, h, ASSIST, IDLE, CALIB, MANUAL, fallGuard, assist]
  split_ifs <;> rfl

/-- Concrete assisted machine state used by the C8 witness. -/
def sAssistW : Sys := { init OpMode.profilePosition true 0 with state := 3, del_r := 2 }

/-- Concrete measurement snapshot with a nonzero steering angle, used by the
C8 witness. -/
def mDel5 : Meas := { phi := 0, dphi := 0, del := 5, ddel := 0, torque := 0, v := 1 }

/-- Concrete collaborator responses with successful calibrations and no
inbound command. -/
def eOk : Ext := { gyroOk := true, accelOk := true, ctrl := 0, cmd := none }

/-- Witness for `assist_position_law` at a concrete input. -/
theorem assist_position_law_witness : (loop sAssistW mDel5 eOk).tmPos = some 3 := by
  have h := assist_position_law sAssistW mDel5 eOk rfl
  rw [h]
  norm_num [mDel5, sAssistW, init]

/-- C7: from state CALIB the transition to IDLE is taken unconditionally, for
every measurement snapshot and every request-register content: the tick ends
in state IDLE with the indicator pulse disabled and the R_CALIB bit cleared
(the inbound command of that tick, a separate actor, is assumed not to be a
set-flags frame, which could re-set the bit after the supervisor cleared
it). -/
theorem calib_always_exits_to_idle (s : Sys) (m : Meas) (e : Ext)
    (h : s.state = CALIB) (hc : setsFlags e.cmd = false) :
    (loop s m e).state = IDLE ∧ (loop s m e).pulse = none ∧
    (loop s m e).user_req &&& R_CALIB = 0 := by
  rw [loop, pollCmd_state, pollCmd_pulse, pollCmd_user_req _ _ hc]
  refine ⟨?_, ?_, ?_⟩
  · simp [switchPhase, h, IDLE, CALIB, calibrate]
  · simp [switchPhase, h, IDLE, CALIB, calibrate]
  · have hu : (switchPhase s m e).1.user_req = s.user_req &&& 254 := by
      simp [switchPhase, h, IDLE, CALIB, R_CALIB, calibrate]
    rw [hu, R_CALIB]
    exact land_land_zero _ _ _ (by simp)

/-- Concrete calibrating machine state used by the C7 witness. -/
def sCalibW : Sys :=
  { init OpMode.modeUnknown false 0 with state := 1, user_req := 1, pulse := some (250, 250) }

/-- Concrete zero measurement snapshot used by several witnesses. -/
def mZero : Meas := { phi := 0, dphi := 0, del := 0, ddel := 0, torque := 0, v := 0 }

/-- Concrete collaborator responses with no inbound command, used by several
witnesses. -/
def eNone : Ext := { gyroOk := true, accelOk := false, ctrl := 0, cmd := none }

/-- Witness for `calib_always_exits_to_idle` at a concrete input. -/
theorem calib_always_exits_to_idle_witness :
    (loop sCalibW mZero eNone).state = IDLE ∧ (loop sCalibW mZero eNone).pulse = none ∧
    (loop sCalibW mZero eNone).user_req &&& R_CALIB = 0 :=
  calib_always_exits_to_idle _ _ _ rfl rfl

/-- C9: the MANUAL and CALIB cases have no fall-detection guard: for every
lean angle, a single tick never takes MANUAL or CALIB to FALLEN; MANUAL
exits (to IDLE) exactly when R_RESUME is set, and CALIB always exits to
IDLE. -/
theorem manual_calib_never_fall (s : Sys) (m : Meas) (e : Ext) :
    (s.state = MANUAL →
      (loop s m e).state ≠ FALLEN ∧
      ((loop s m e).state = IDLE ↔ s.user_req &&& R_RESUME ≠ 0) ∧
      (s.user_req &&& R_RESUME = 0 → (loop s m e).state = MANUAL)) ∧
    (s.state = CALIB → (loop s m e).state ≠ FALLEN ∧ (loop s m e).state = IDLE) := by
  constructor
  · intro h
    rw [loop, pollCmd_state]
    by_cases hr : s.user_req &&& R_RESUME = 0 <;>
      simp [switchPhase, h, MANUAL, IDLE, CALIB, FALLEN, manual, hr]
  · intro h
    rw [loop, pollCmd_state]
    simp [switchPhase, h, CALIB, IDLE, FALLEN, calibrate]

/-- Concrete manual machine state used by the C9 witness. -/
def sManualW : Sys := { init OpMode.profilePosition true 0 with state := 2, user_req := 2 }

/-- Concrete measurement snapshot with a lean angle past the fall threshold,
used by the C9 witness. -/
def mLeanOver : Meas := { phi := 1, dphi := 0, del := 0, ddel := 0, torque := 0, v := 0 }

/-- Witness for `manual_calib_never_fall` at a concrete input: even with the
lean angle past the fall threshold, a MANUAL tick with no resume request
stays in MANUAL. -/
theorem manual_calib_never_fall_witness : (loop sManualW mLeanOver eOk).state = MANUAL := by
  have h := (manual_calib_never_fall sManualW mLeanOver eOk).1 rfl
  exact h.2.2 rfl

/-- C4: from IDLE, on a tick where both the fall guard and the speed guard
match (and no request bit is pending), the speed guard is evaluated after
the fall guard and its assignment overwrites it, so the resulting state is
ASSIST, not FALLEN. -/
theorem fall_then_speed_guard_gives_assist (s : Sys) (m : Meas) (e : Ext)
    (h : s.state = IDLE) (hphi : fabs m.phi > FTHRESH) (hv : m.v > 1)
    (hcal : s.user_req &&& R_CALIB = 0) (hman : s.user_req &&& R_MANUAL = 0) :
    (loop s m e).state = ASSIST ∧ (loop s m e).state ≠ FALLEN := by
  rw [loop, pollCmd_state]
  simp [switchPhase, h, IDLE, ASSIST, FALLEN, fallGuard, idle, hphi, hv, hcal, hman]

/-- Concrete idle machine state with no pending requests, used by the C4
witness. -/
def sIdleW : Sys := init OpMode.modeUnknown false 0

/-- Concrete measurement snapshot where the vehicle is both past the fall
threshold and faster than 1 m/s, used by the C4 witness. -/
def mFallFast : Meas := { phi := 1, dphi := 0, del := 0, ddel := 0, torque := 0, v := 2 }

/-- Witness for `fall_then_speed_guard_gives_assist` at a concrete input. -/
theorem fall_then_speed_guard_gives_assist_witness :
    (loop sIdleW mFallFast eOk).state = ASSIST ∧ (loop sIdleW mFallFast eOk).state ≠ FALLEN :=
  fall_then_speed_guard_gives_assist sIdleW mFallFast eOk rfl
    (by norm_num [mFallFast, fabs, FTHRESH, PI]) (by norm_num [mFallFast]) rfl rfl

/-- C6: from E_STOP, on a tick with R_RESUME set and a zero lean angle, the
next state is IDLE and both the R_RESUME and R_STOP bits of the request
register are cleared (the inbound command of that tick is assumed not to be
a set-flags frame, which could re-set them after the supervisor cleared
them). -/
theorem estop_resume_clears_bits (s : Sys) (m : Meas) (e : Ext)
    (h : s.state = E_STOP) (hr : s.user_req &&& R_RESUME ≠ 0) (hphi : m.phi = 0)
    (hc : setsFlags e.cmd = false) :
    (loop s m e).state = IDLE ∧ (loop s m e).user_req &&& R_RESUME = 0 ∧
    (loop s m e).user_req &&& R_STOP = 0 := by
  rw [loop, pollCmd_state, pollCmd_user_req _ _ hc]
  have hfall : ¬ (fabs m.phi > FTHRESH) := by
    norm_num [hphi, fabs, FTHRESH, PI]
  have hr8 : ¬ (s.user_req &&& 8 = 0) := by rwa [R_RESUME] at hr
  have hu : (switchPhase s m e).1.user_req = s.user_req &&& 243 := by
    simp [switchPhase, h, IDLE, CALIB, MANUAL, ASSIST, AUTO, FALLEN, E_STOP, fallGuard, hfall,
      emergency_stop, hr8, R_RESUME, R_STOP]
  refine ⟨?_, ?_, ?_⟩
  · simp [switchPhase, h, IDLE, CALIB, MANUAL, ASSIST, AUTO, FALLEN, E_STOP, fallGuard, hfall,
      emergency_stop, hr8, R_RESUME, R_STOP]
  · rw [hu, R_RESUME]
    exact land_land_zero _ _ _ (by decide)
  · rw [hu, R_STOP]
    exact land_land_zero _ _ _ (by decide)

/-- Concrete emergency-stop machine state with both R_STOP and R_RESUME set,
used by the C6 witness. -/
def sEstopW : Sys := { init OpMode.modeUnknown false 0 with state := 6, user_req := 12 }

/-- Witness for `estop_resume_clears_bits` at a concrete input. -/
theorem estop_resume_clears_bits_witness :
    (loop sEstopW mZero eOk).state = IDLE ∧ (loop sEstopW mZero eOk).user_req &&& R_RESUME = 0 ∧
    (loop sEstopW mZero eOk).user_req &&& R_STOP = 0 :=
  estop_resume_clears_bits sEstopW mZero eOk rfl (by simp [sEstopW, init, R_RESUME]) rfl rfl

/-- C10: request bits are cleared on exit transitions, never on entry.  The
IDLE, ASSIST and AUTO cases (the only cases with transitions into CALIB,
MANUAL and E_STOP) never write the request register; while MANUAL or E_STOP
is active and no resume is pending the register is unchanged; the register
is written only by the exit transitions back to IDLE, which clear exactly
the consumed bits (R_RESUME and R_MANUAL leaving MANUAL, R_RESUME and
R_STOP leaving E_STOP, R_CALIB leaving CALIB). -/
theorem request_bits_cleared_on_exit_only (s : Sys) (m : Meas) (e : Ext) :
    ((s.state = IDLE ∨ s.state = ASSIST ∨ s.state = AUTO) →
        (switchPhase s m e).1.user_req = s.user_req) ∧
    (s.state = MANUAL → s.user_req &&& R_RESUME = 0 →
        (switchPhase s m e).1.user_req = s.user_req) ∧
    (s.state = E_STOP → s.user_req &&& R_RESUME = 0 →
        (switchPhase s m e).1.user_req = s.user_req) ∧
    (s.state = MANUAL → s.user_req &&& R_RESUME ≠ 0 →
        (switchPhase s m e).1.state = IDLE ∧
        (switchPhase s m e).1.user_req = s.user_req &&& (255 ^^^ (R_RESUME ||| R_MANUAL))) ∧
    (s.state = E_STOP → s.user_req &&& R_RESUME ≠ 0 →
        (switchPhase s m e).1.state = IDLE ∧
        (switchPhase s m e).1.user_req = s.user_req &&& (255 ^^^ (R_RESUME ||| R_STOP))) ∧
    (s.state = CALIB →
        (switchPhase s m e).1.state = IDLE ∧
        (switchPhase s m e).1.user_req = s.user_req &&& (255 ^^^ R_CALIB)) := by
  refine ⟨?_, ?_, ?_, ?_, ?_, ?_⟩
  · rintro (h | h | h) <;>
      simp [switchPhase, h, IDLE, CALIB, MANUAL, ASSIST, AUTO, FALLEN, E_STOP, fallGuard,
        idle, assist, automatic] <;>
      split_ifs <;> rfl
  · intro h hr
    simp [switchPhase, h, IDLE, CALIB, MANUAL, fallGuard, manual, hr]
  · intro h hr
    simp [switchPhase, h, IDLE, CALIB, MANUAL, ASSIST, AUTO, FALLEN, E_STOP, fallGuard,
      emergency_stop, hr]
    split_ifs <;> rfl
  · intro h hr
    simp [switchPhase, h, IDLE, CALIB, MANUAL, fallGuard, manual, hr]
  · intro h hr
    constructor <;>
      simp [switchPhase, h, IDLE, CALIB, MANUAL, ASSIST, AUTO, FALLEN, E_STOP, fallGuard,
        emergency_stop, hr] <;> split_ifs <;> rfl
  · intro h
    constructor <;> simp [switchPhase, h, IDLE, CALIB, calibrate]

/-- Concrete idle machine state with a pending calibration request, used by
the C10 witness. -/
def sIdleReqW : Sys := { init OpMode.modeUnknown false 0 with user_req := 1 }

/-- Witness for `request_bits_cleared_on_exit_only` at a concrete input: the
transition into CALIB leaves the request register unchanged. -/
theorem request_bits_cleared_on_exit_only_witness :
    (switchPhase sIdleReqW mZero eOk).1.user_req = 1 :=
  (request_bits_cleared_on_exit_only sIdleReqW mZero eOk).1 (Or.inl rfl)

/-- Concrete measurement snapshot with vehicle speed 1.5 m/s and a nonzero
steering angle, used by the C1 counterexample. -/
def mV15 : Meas := { phi := 0, dphi := 0, del := 1, ddel := 0, torque := 0, v := 3 / 2 }

/-- C1 counterexample: on a tick that transitions IDLE to ASSIST (speed 1.5
exceeds 1.0), the action invoked is the IDLE case's `idle`, not `assist`:
the recorded action tag is IDLE, and the position setpoint `assist` would
have commanded (`del - del_r = 1`) was not commanded.  This refutes the
claim that the action invoked belongs to the resulting state. -/
theorem action_of_new_state_cex :
    (switchPhase sIdleW mV15 eOk).1.state = ASSIST ∧
    tickAction sIdleW mV15 eOk = some IDLE ∧
    some IDLE ≠ some ASSIST ∧
    (switchPhase sIdleW mV15 eOk).1.tmPos = none := by
  refine ⟨?_, ?_, by simp [IDLE, ASSIST], ?_⟩ <;>
    norm_num [switchPhase, tickAction, sIdleW, mV15, eOk, init, fallGuard, fabs, FTHRESH, PI,
      idle, IDLE, ASSIST, R_CALIB, R_MANUAL]

/-- C1 amended: on every tick that starts in one of the seven defined states,
exactly one state action is invoked, and it is the action belonging to the
state at the start of the tick, before the guards possibly assign a new
state; in the default (invalid-state) case no action is invoked. -/
theorem action_is_start_state_action (s : Sys) (m : Meas) (e : Ext) (h : s.state < 7) :
    tickAction s m e = some s.state := by
  have hc : s.state = 0 ∨ s.state = 1 ∨ s.state = 2 ∨ s.state = 3 ∨ s.state = 4 ∨
      s.state = 5 ∨ s.state = 6 := by omega
  rcases hc with h1 | h1 | h1 | h1 | h1 | h1 | h1 <;>
    simp [tickAction, switchPhase, h1, IDLE, CALIB, MANUAL, ASSIST, AUTO, FALLEN, E_STOP]

/-- Witness for `action_is_start_state_action` at a concrete input. -/
theorem action_is_start_state_action_witness :
    tickAction sManualW mZero eOk = some sManualW.state :=
  action_is_start_state_action sManualW mZero eOk (by norm_num [sManualW, init])

/-- Concrete collaborator responses carrying an inbound set-speed frame with
value 3 m/s, used by the C2 failing trace. -/
def eSet3 : Ext := { gyroOk := true, accelOk := true, ctrl := 0, cmd := some (Cmd.cmdSetSpeed 3) }

/-- The machine state after a concrete trace from `setup`: one idle tick in
which the operator commands speed 3, then one tick in which the lean angle
reads 1 rad, taking IDLE to FALLEN with the drive motor still commanded to
3 m/s. -/
def sFallen3 : Sys := loop (loop (init OpMode.modeUnknown false 0) mZero eSet3) mLeanOver eOk

/-- C2 failing trace: a reachable FALLEN state in which the drive actuator's
commanded speed is 3, and a full further tick spent in FALLEN (the `fallen`
action is an empty TODO stub) leaves it at 3, not 0: while the vehicle state
is FALLEN the actuator does not issue zero net drive. -/
theorem fallen_tick_keeps_drive :
    Reachable sFallen3 ∧ sFallen3.state = FALLEN ∧ sFallen3.driveSpeed = 3 ∧
    (loop sFallen3 mLeanOver eOk).state = FALLEN ∧
    (loop sFallen3 mLeanOver eOk).driveSpeed = 3 ∧ (3 : ℚ) ≠ 0 := by
  refine ⟨Reachable.step _ _ _ (Reachable.step _ _ _ (Reachable.start _ _ _)), ?_, ?_, ?_, ?_,
    by norm_num⟩ <;>
    norm_num [sFallen3, loop, switchPhase, pollCmd, fallGuard, fabs, FTHRESH, UTHRESH, PI,
      init, mZero, eSet3, mLeanOver, eOk, idle, fallen, IDLE, CALIB, MANUAL, ASSIST, AUTO,
      FALLEN, E_STOP, R_CALIB, R_MANUAL, R_RESUME, R_STOP]

lemma invalid_state_fixed (s : Sys) (m : Meas) (e : Ext) (h : 7 ≤ s.state) :
    (loop s m e).state = s.state := by
  have h0 : ¬ (s.state = 0) := by omega
  have h1 : ¬ (s.state = 1) := by omega
  have h2 : ¬ (s.state = 2) := by omega
  have h3 : ¬ (s.state = 3) := by omega
  have h4 : ¬ (s.state = 4) := by omega
  have h5 : ¬ (s.state = 5) := by omega
  have h6 : ¬ (s.state = 6) := by omega
  rw [loop, pollCmd_state]
  simp [switchPhase, IDLE, CALIB, MANUAL, ASSIST, AUTO, FALLEN, E_STOP, h0, h1, h2, h3, h4,
    h5, h6]

/-- Concrete invalid machine state (state byte 9) with live actuator
commands, used by the C5 counterexample. -/
def sInvalidW : Sys := { init OpMode.profileTorque true 3 with state := 9, tmTorque := some 2 }

/-- C5 counterexample: a tick in an invalid state (9) forces the passive
indicator color to black but does not disable the actuator outputs: the
drive motor stays commanded to 3 m/s, the torque setpoint stays 2, the
balance actuator stays enabled, and the blink color is not forced off.
This refutes the claim that the tick disables actuator outputs and forces
the indicator off. -/
theorem invalid_state_outputs_cex :
    (loop sInvalidW mZero eOk).passive = (0, 0, 0) ∧
    (loop sInvalidW mZero eOk).driveSpeed = 3 ∧
    (loop sInvalidW mZero eOk).tmTorque = some 2 ∧
    (loop sInvalidW mZero eOk).tmEnabled = true ∧
    (loop sInvalidW mZero eOk).blink = RGB_IDLE_B ∧ RGB_IDLE_B ≠ (0, 0, 0) := by
  refine ⟨?_, ?_, ?_, ?_, ?_, by simp [RGB_IDLE_B]⟩ <;>
    norm_num [loop, switchPhase, pollCmd, sInvalidW, init, mZero, eOk, IDLE, CALIB, MANUAL,
      ASSIST, AUTO, FALLEN, E_STOP, RGB_IDLE_B]

/-- C5 amended: if the state byte holds a value outside the seven defined
states, the tick is a terminal fault in the following sense: no state action
is invoked, the passive indicator color is forced to black, and no further
transitions are evaluated on that or any later tick (the state never changes
again, so there is no recovery without restart); the actuator outputs,
however, are not disabled - the supervisor leaves them at their last
commanded values. -/
theorem invalid_state_terminal (s : Sys) (m : Meas) (e : Ext) (l : List (Meas × Ext))
    (h : 7 ≤ s.state) :
    tickAction s m e = none ∧
    (loop s m e).passive = (0, 0, 0) ∧
    (loop s m e).state = s.state ∧
    (run s l).state = s.state ∧
    (switchPhase s m e).1.driveSpeed = s.driveSpeed ∧
    (switchPhase s m e).1.tmEnabled = s.tmEnabled ∧
    (switchPhase s m e).1.tmPos = s.tmPos ∧
    (switchPhase s m e).1.tmTorque = s.tmTorque := by
  have h0 : ¬ (s.state = 0) := by omega
  have h1 : ¬ (s.state = 1) := by omega
  have h2 : ¬ (s.state = 2) := by omega
  have h3 : ¬ (s.state = 3) := by omega
  have h4 : ¬ (s.state = 4) := by omega
  have h5 : ¬ (s.state = 5) := by omega
  have h6 : ¬ (s.state = 6) := by omega
  have hrun : ∀ (l : List (Meas × Ext)) (t : Sys), 7 ≤ t.state → (run t l).state = t.state := by
    intro l
    induction l with
    | nil => intro t _; rfl
    | cons p rest ihl =>
        intro t ht
        obtain ⟨mp, ep⟩ := p
        rw [run, ihl _ (by rw [invalid_state_fixed t mp ep ht]; exact ht),
          invalid_state_fixed t mp ep ht]
  refine ⟨?_, ?_, invalid_state_fixed s m e h, hrun l s h, ?_, ?_, ?_, ?_⟩ <;>
    first
      | (rw [loop, pollCmd_passive]
         simp [switchPhase, tickAction, IDLE, CALIB, MANUAL, ASSIST, AUTO, FALLEN, E_STOP,
           h0, h1, h2, h3, h4, h5, h6])
      | simp [switchPhase, tickAction, IDLE, CALIB, MANUAL, ASSIST, AUTO, FALLEN, E_STOP,
          h0, h1, h2, h3, h4, h5, h6]

/-- Witness for `invalid_state_terminal` at a concrete input. -/
theorem invalid_state_terminal_witness :
    tickAction sInvalidW mZero eOk = none ∧
    (loop sInvalidW mZero eOk).passive = (0, 0, 0) ∧
    (loop sInvalidW mZero eOk).state = sInvalidW.state ∧
    (run sInvalidW [(mZero, eOk), (mLeanOver, eSet3)]).state = sInvalidW.state ∧
    (switchPhase sInvalidW mZero eOk).1.driveSpeed = sInvalidW.driveSpeed ∧
    (switchPhase sInvalidW mZero eOk).1.tmEnabled = sInvalidW.tmEnabled ∧
    (switchPhase sInvalidW mZero eOk).1.tmPos = sInvalidW.tmPos ∧
    (switchPhase sInvalidW mZero eOk).1.tmTorque = sInvalidW.tmTorque :=
  invalid_state_terminal sInvalidW mZero eOk [(mZero, eOk), (mLeanOver, eSet3)]
    (by norm_num [sInvalidW, init])

/-- Actuator mode invariant: whenever the vehicle state is ASSIST or MANUAL
the balance actuator is in position tracking mode, and whenever it is AUTO
the actuator is in torque tracking mode. -/
def ModeInv (s : Sys) : Prop :=
  ((s.state = ASSIST ∨ s.state = MANUAL) → s.tmMode = OpMode.profilePosition) ∧
  (s.state = AUTO → s.tmMode = OpMode.profileTorque)

lemma modeInv_switchPhase (s : Sys) (m : Meas) (e : Ext) (ih : ModeInv s) :
    ModeInv (switchPhase s m e).1 := by
  obtain ⟨ih1, ih2⟩ := ih
  rcases Nat.lt_or_ge s.state 7 with h7 | h7
  · have hc : s.state = 0 ∨ s.state = 1 ∨ s.state = 2 ∨ s.state = 3 ∨ s.state = 4 ∨
        s.state = 5 ∨ s.state = 6 := by omega
    rcases hc with h | h | h | h | h | h | h <;>
      · simp only [ModeInv] at ih1 ih2 ⊢
        simp [switchPhase, h, IDLE, CALIB, MANUAL, ASSIST, AUTO, FALLEN, E_STOP, fallGuard,
          idle, calibrate, manual, assist, automatic, fallen, emergency_stop] at ih1 ih2 ⊢ <;>
        split_ifs <;> simp_all
  · have h0 : ¬ (s.state = 0) := by omega
    have h1 : ¬ (s.state = 1) := by omega
    have h2 : ¬ (s.state = 2) := by omega
    have h3 : ¬ (s.state = 3) := by omega
    have h4 : ¬ (s.state = 4) := by omega
    have h5 : ¬ (s.state = 5) := by omega
    have h6 : ¬ (s.state = 6) := by omega
    simp only [ModeInv]
    simp [switchPhase, IDLE, CALIB, MANUAL, ASSIST, AUTO, FALLEN, E_STOP, h0, h1, h2, h3,
      h4, h5, h6]

/-- C3: for every reachable machine state, at the end of every tick, if the
vehicle state is ASSIST or MANUAL the balance actuator's mode is position
tracking, and if it is AUTO the mode is torque tracking: every transition
entering those states performs the required setMode before the tick ends. -/
theorem mode_invariant (s : Sys) (h : Reachable s) : ModeInv s := by
  induction h with
  | start mode en ds =>
      constructor <;> intro hst <;> simp [init, IDLE, ASSIST, MANUAL, AUTO] at hst
  | step s m e _ ih =>
      have hstep := modeInv_switchPhase s m e ih
      constructor
      · intro hst
        rw [loop, pollCmd_tmMode]
        exact hstep.1 (by rwa [loop, pollCmd_state] at hst)
      · intro hst
        rw [loop, pollCmd_tmMode]
        exact hstep.2 (by rwa [loop, pollCmd_state] at hst)

/-- Witness for `mode_invariant`: applies it to a concrete reachable state,
the result of one tick from `setup` in which the vehicle speed reads 1.5 m/s
(entering ASSIST). -/
theorem mode_invariant_witness : ModeInv (loop (init OpMode.modeUnknown false 0) mV15 eOk) :=
  mode_invariant _ (Reachable.step _ _ _ (Reachable.start _ _ _))

end Autocycle
